import Mathlib

/-!
Shallow embedding of the gravitational-microlensing simulator `lsne5.py`:
the magnification model, the mutable session state, the lifecycle button
handlers (start / pause / reset) and the body of the main simulation loop,
together with theorems about the recorded light curve and the engine state.

Numeric model: positions and magnifications are real numbers.  With the
source's fixed constants SIM_WIDTH = 400 and TIME_STEPS = 400 the per-step
increment SIM_WIDTH / TIME_STEPS is exactly 1.0 in binary64 and every lens
position reached is a small integer, so every floating-point addition the
program performs on the lens position is exact and the real-valued model
below coincides with the program bit for bit on those quantities.
-/

namespace Lsne5

noncomputable section

/-- Width of the simulation view (source line 61). -/
def SIM_WIDTH : ℝ := 400

/-- Height of the simulation view (source line 62). -/
def SIM_HEIGHT : ℝ := 300

/-- Number of steps in the simulation (source line 63). -/
def TIME_STEPS : ℝ := 400

/-- The sidebar configuration values read once per loop pass
(source lines 121-142); `has_planet = false` forces the planet fields to
their zero defaults exactly as source lines 133-138 do. -/
structure Config where
  lens_mass : ℝ
  lens_radius : ℝ
  lens_dist_factor : ℝ
  has_planet : Bool
  planet_mass : ℝ
  planet_radius : ℝ
  planet_orbit_dist : ℝ
  planet_orbit_speed : ℝ
  source_radius : ℝ

/-- The mutable session state of the app (source lines 68-75). -/
structure SessionState where
  is_running : Bool
  time_step : ℕ
  light_curve_data : List (ℕ × ℝ)
  lens_pos_x : ℝ

/-- The freshly initialized session state (source lines 68-75). -/
def initState : SessionState :=
  { is_running := false
    time_step := 0
    light_curve_data := []
    lens_pos_x := -SIM_WIDTH / 2 }

/-- The epsilon guard of `calculate_magnification` (source line 89): 1e-9. -/
def epsilon : ℝ := 1 / 1000000000

/-- The source radius scaled by the Einstein radius (source line 90). -/
def rho (source_radius einstein_radius : ℝ) : ℝ :=
  source_radius / (einstein_radius + epsilon)

/-- The magnification function `calculate_magnification`
(source lines 79-104). -/
def calculate_magnification (u source_radius einstein_radius : ℝ) : ℝ :=
  if u ≤ rho source_radius einstein_radius then
    if rho source_radius einstein_radius < epsilon then
      (u ^ 2 + 2) / ((u + epsilon) * Real.sqrt (u ^ 2 + 4))
    else
      (rho source_radius einstein_radius ^ 2 + 2) /
        (rho source_radius einstein_radius *
          Real.sqrt (rho source_radius einstein_radius ^ 2 + 4))
  else
    (u ^ 2 + 2) / (u * Real.sqrt (u ^ 2 + 4))

/-- `reset_simulation` (source lines 106-111). -/
def reset_simulation (s : SessionState) : SessionState :=
  { s with
    is_running := false
    time_step := 0
    light_curve_data := []
    lens_pos_x := -SIM_WIDTH / 2 }

/-- The Start / Resume button handler (source lines 148-149). -/
def start_resume (s : SessionState) : SessionState :=
  { s with is_running := true }

/-- The Pause button handler (source lines 156-157). -/
def pause (s : SessionState) : SessionState :=
  { s with is_running := false }

/-- Python's `%` operator on reals, as used for the orbital angle
(source line 191); for a positive modulus it is the floored remainder. -/
def float_mod (a b : ℝ) : ℝ := a - b * (⌊a / b⌋ : ℝ)

/-- Vertical position of the observer (source line 182). -/
def earth_pos_y : ℝ := 20

/-- Vertical position of the source star (source line 183). -/
def source_pos_y : ℝ := SIM_HEIGHT - 20

/-- The source star is stationary at x = 0 (source line 196). -/
def source_pos_x : ℝ := 0

/-- Vertical position of the lens star (source line 188). -/
def lens_pos_y (cfg : Config) : ℝ :=
  earth_pos_y + (source_pos_y - earth_pos_y) * cfg.lens_dist_factor

/-- The planet's orbital angle (source line 191), computed from the
pre-increment time step of the current loop pass. -/
def planet_angle (cfg : Config) (time_step : ℕ) : ℝ :=
  float_mod ((time_step : ℝ) * cfg.planet_orbit_speed * 0.1) (2 * Real.pi)

/-- The planet's horizontal position (source line 192), a function of the
already-advanced lens position of the current loop pass. -/
def planet_pos_x (cfg : Config) (lens_x : ℝ) (time_step : ℕ) : ℝ :=
  lens_x + cfg.planet_orbit_dist * Real.cos (planet_angle cfg time_step)

/-- The planet's vertical position (source line 193). -/
def planet_pos_y (cfg : Config) (time_step : ℕ) : ℝ :=
  lens_pos_y cfg + cfg.planet_orbit_dist * Real.sin (planet_angle cfg time_step)

/-- Einstein radius of the lens star (source line 200). -/
def einstein_radius_star (cfg : Config) : ℝ := 15 * Real.sqrt cfg.lens_mass

/-- Magnification contributed by the lens star (source lines 200-203). -/
def magnification_star (cfg : Config) (lens_x : ℝ) : ℝ :=
  calculate_magnification (|lens_x - source_pos_x| / einstein_radius_star cfg)
    cfg.source_radius (einstein_radius_star cfg)

/-- Einstein radius of the planet (source line 207). -/
def einstein_radius_planet (cfg : Config) : ℝ := 15 * Real.sqrt cfg.planet_mass

/-- Magnification contributed by the planet, 0 when there is no planet
(source lines 205-211); the `- 1.0` baseline subtraction is included here
exactly as in source line 211. -/
def magnification_planet (cfg : Config) (lens_x : ℝ) (time_step : ℕ) : ℝ :=
  if cfg.has_planet then
    calculate_magnification
        (|planet_pos_x cfg lens_x time_step - source_pos_x| /
          einstein_radius_planet cfg)
        cfg.source_radius (einstein_radius_planet cfg) - 1
  else 0

/-- The total magnification of one frame (source line 214). -/
def total_magnification (cfg : Config) (lens_x : ℝ) (time_step : ℕ) : ℝ :=
  magnification_star cfg lens_x + magnification_planet cfg lens_x time_step

/-- One pass of the main simulation loop body (source lines 179-311), in the
source's order: advance the lens (line 186), compute the frame magnification
from the advanced position and the pre-increment time step (lines 191-214),
append the sample with the pre-increment time step (lines 216-218), then
increment the time step (line 309) and run the termination check (310-311). -/
def step (cfg : Config) (s : SessionState) : SessionState :=
  { is_running :=
      if s.lens_pos_x + SIM_WIDTH / TIME_STEPS > SIM_WIDTH / 2 then false
      else s.is_running
    time_step := s.time_step + 1
    light_curve_data := s.light_curve_data ++
      [(s.time_step,
        total_magnification cfg (s.lens_pos_x + SIM_WIDTH / TIME_STEPS) s.time_step)]
    lens_pos_x := s.lens_pos_x + SIM_WIDTH / TIME_STEPS }

/-- A lifecycle operation the user can trigger between loop passes. -/
inductive Op
  | start
  | pauseBtn
  | stepOnce

/-- Apply one lifecycle operation to the session state. -/
def applyOp (cfg : Config) (s : SessionState) : Op → SessionState
  | Op.start => start_resume s
  | Op.pauseBtn => pause s
  | Op.stepOnce => step cfg s

/-- Run a list of lifecycle operations from a state, left to right. -/
def runOps (cfg : Config) : SessionState → List Op → SessionState
  | s, [] => s
  | s, op :: ops => runOps cfg (applyOp cfg s op) ops

/-- The number of `stepOnce` operations in a list of operations. -/
def countSteps : List Op → ℕ
  | [] => 0
  | Op.start :: ops => countSteps ops
  | Op.pauseBtn :: ops => countSteps ops
  | Op.stepOnce :: ops => countSteps ops + 1

/-- Iterate the loop body n times. -/
def stepIter (cfg : Config) : ℕ → SessionState → SessionState
  | 0, s => s
  | n + 1, s => step cfg (stepIter cfg n s)

/-- The configuration of the spec's test scenario: lensMass 5.0,
sourceRadius 8, no planet (planet fields zeroed per source lines 133-138),
remaining sliders at their source defaults. -/
def scenarioConfig : Config :=
  { lens_mass := 5
    lens_radius := 10
    lens_dist_factor := 0.5
    has_planet := false
    planet_mass := 0
    planet_radius := 0
    planet_orbit_dist := 0
    planet_orbit_speed := 0
    source_radius := 8 }

/-- The reference definition of the magnification function, transcribed from
the specification's three-case description of `magnification(u, r, e)`
(cases: u ≤ rho with rho < epsilon; u ≤ rho with rho ≥ epsilon; u > rho),
kept separate from `calculate_magnification` so the two can be compared. -/
def magnification_spec (u source_radius einstein_radius : ℝ) : ℝ :=
  if u ≤ rho source_radius einstein_radius ∧
      rho source_radius einstein_radius < epsilon then
    (u ^ 2 + 2) / ((u + epsilon) * Real.sqrt (u ^ 2 + 4))
  else if u ≤ rho source_radius einstein_radius ∧
      epsilon ≤ rho source_radius einstein_radius then
    (rho source_radius einstein_radius ^ 2 + 2) /
      (rho source_radius einstein_radius *
        Real.sqrt (rho source_radius einstein_radius ^ 2 + 4))
  else
    (u ^ 2 + 2) / (u * Real.sqrt (u ^ 2 + 4))

/-- The standard point-lens formula, the u > rho branch of
`calculate_magnification` (source line 102). -/
def point_lens_formula (u : ℝ) : ℝ :=
  (u ^ 2 + 2) / (u * Real.sqrt (u ^ 2 + 4))

/-- Unfolding lemma for one more iteration of the loop body. -/
theorem stepIter_succ (cfg : Config) (n : ℕ) (s : SessionState) :
    stepIter cfg (n + 1) s = step cfg (stepIter cfg n s) := rfl

/-- Running a list of operations adds exactly one time-step increment per
`stepOnce` operation. -/
theorem runOps_time_step (cfg : Config) (ops : List Op) :
    ∀ s : SessionState,
      (runOps cfg s ops).time_step = s.time_step + countSteps ops := by
  induction ops with
  | nil => intro s; simp [runOps, countSteps]
  | cons op ops ih =>
      intro s
      cases op <;>
        simp [runOps, applyOp, countSteps, start_resume, pause, step, ih] <;> omega

/-- Running a list of operations advances the lens position by exactly
SIM_WIDTH / TIME_STEPS per `stepOnce` operation. -/
theorem runOps_lens_pos_x (cfg : Config) (ops : List Op) :
    ∀ s : SessionState,
      (runOps cfg s ops).lens_pos_x =
        s.lens_pos_x + countSteps ops * (SIM_WIDTH / TIME_STEPS) := by
  induction ops with
  | nil => intro s; simp [runOps, countSteps]
  | cons op ops ih =>
      intro s
      cases op <;>
          simp [runOps, applyOp, countSteps, start_resume, pause, step, ih] <;>
        push_cast <;> ring

/-- Running a list of operations appends exactly one light-curve sample per
`stepOnce` operation and never removes samples. -/
theorem runOps_light_curve_length (cfg : Config) (ops : List Op) :
    ∀ s : SessionState,
      (runOps cfg s ops).light_curve_data.length =
        s.light_curve_data.length + countSteps ops := by
  induction ops with
  | nil => intro s; simp [runOps, countSteps]
  | cons op ops ih =>
      intro s
      cases op <;>
        simp [runOps, applyOp, countSteps, start_resume, pause, step, ih] <;> omega

/-- Trace of n loop passes from a state with the initial time step, lens
position and light curve: the time step counts the passes, the lens position
is the exact linear function of the time step, and the light curve holds one
sample per pass, stamped with the pre-increment time step and carrying the
magnification evaluated at the already-advanced lens position. -/
theorem stepIter_trace (cfg : Config) (s : SessionState) (h0 : s.time_step = 0)
    (h1 : s.lens_pos_x = -SIM_WIDTH / 2) (h2 : s.light_curve_data = []) :
    ∀ n : ℕ,
      (stepIter cfg n s).time_step = n ∧
      (stepIter cfg n s).lens_pos_x =
        -SIM_WIDTH / 2 + n * (SIM_WIDTH / TIME_STEPS) ∧
      (stepIter cfg n s).light_curve_data =
        (List.range n).map (fun k : ℕ =>
          (k, total_magnification cfg
            (-SIM_WIDTH / 2 + ((k : ℝ) + 1) * (SIM_WIDTH / TIME_STEPS)) k)) := by
  intro n
  induction n with
  | zero =>
      refine ⟨by simpa [stepIter] using h0, ?_, by simpa [stepIter] using h2⟩
      simp [stepIter, h1]
  | succ k ih =>
      obtain ⟨ht, hx, hc⟩ := ih
      have harg : (stepIter cfg k s).lens_pos_x + SIM_WIDTH / TIME_STEPS =
          -SIM_WIDTH / 2 + ((k : ℝ) + 1) * (SIM_WIDTH / TIME_STEPS) := by
        rw [hx]; ring
      refine ⟨?_, ?_, ?_⟩
      · simp [stepIter, step, ht]
      · simp only [stepIter, step]
        rw [hx]
        push_cast
        ring
      · simp only [stepIter, step]
        rw [hc, ht, harg, List.range_succ, List.map_append]
        simp

/-- Claim C1: after a reset, under any interleaving of start, pause and
step operations, the time step equals the number of steps taken and the
lens position is exactly the linear function
-SIM_WIDTH / 2 + timeStep * (SIM_WIDTH / TIME_STEPS) of the time step,
even though `step` advances the position by repeated in-place addition of
SIM_WIDTH / TIME_STEPS (source line 186) rather than recomputing the
closed form. -/
theorem lens_position_linear_invariant (cfg : Config) (s : SessionState)
    (ops : List Op) :
    (runOps cfg (reset_simulation s) ops).time_step = countSteps ops ∧
    (runOps cfg (reset_simulation s) ops).lens_pos_x =
      -SIM_WIDTH / 2 +
        (runOps cfg (reset_simulation s) ops).time_step *
          (SIM_WIDTH / TIME_STEPS) := by
  have ht := runOps_time_step cfg ops (reset_simulation s)
  have hx := runOps_lens_pos_x cfg ops (reset_simulation s)
  constructor
  · simpa [reset_simulation] using ht
  · rw [hx, ht]
    simp [reset_simulation]

/-- Claim C7: the sample appended by one loop pass carries a total
magnification equal to the lens-star magnification plus, when a planet is
present, the planet magnification minus 1, and plus exactly 0 otherwise;
each per-body magnification is `calculate_magnification` applied to
u = |bodyX - sourceX| / einsteinRadius with einsteinRadius = 15·sqrt(mass)
(source lines 198-214). -/
theorem step_total_magnification_decomposition (cfg : Config)
    (s : SessionState) :
    (step cfg s).light_curve_data =
      s.light_curve_data ++
        [(s.time_step,
          calculate_magnification
              (|s.lens_pos_x + SIM_WIDTH / TIME_STEPS - source_pos_x| /
                (15 * Real.sqrt cfg.lens_mass))
              cfg.source_radius (15 * Real.sqrt cfg.lens_mass) +
            (if cfg.has_planet then
              calculate_magnification
                  (|planet_pos_x cfg (s.lens_pos_x + SIM_WIDTH / TIME_STEPS)
                        s.time_step - source_pos_x| /
                    (15 * Real.sqrt cfg.planet_mass))
                  cfg.source_radius (15 * Real.sqrt cfg.planet_mass) - 1
            else 0))] := by
  simp only [step, total_magnification, magnification_star,
    magnification_planet, einstein_radius_star, einstein_radius_planet]

/-- Claim C8: starting from a reset, under any interleaving of start, pause
and step operations the light curve holds exactly one sample per step taken
(start and pause never append or delete), and a reset leaves it empty. -/
theorem light_curve_length_counts_steps (cfg : Config) (s : SessionState)
    (ops : List Op) :
    (runOps cfg (reset_simulation s) ops).light_curve_data.length =
      countSteps ops ∧
    (reset_simulation s).light_curve_data = [] := by
  constructor
  · simpa [reset_simulation] using
      runOps_light_curve_length cfg ops (reset_simulation s)
  · rfl

/-- Claim C9: a reset after any sequence of start, pause and step operations
yields exactly the freshly initialized state: not running, time step 0,
empty light curve, lens at -SIM_WIDTH / 2. -/
theorem reset_roundtrip (cfg : Config) (s : SessionState) (ops : List Op) :
    reset_simulation (runOps cfg s ops) = initState ∧
    (reset_simulation (runOps cfg s ops)).time_step = 0 ∧
    (reset_simulation (runOps cfg s ops)).lens_pos_x = -SIM_WIDTH / 2 ∧
    (reset_simulation (runOps cfg s ops)).light_curve_data = [] ∧
    (reset_simulation (runOps cfg s ops)).is_running = false :=
  ⟨rfl, rfl, rfl, rfl, rfl⟩

/-- Claim C10: the Start / Resume and Pause button handlers change only the
running flag, leaving the time step, the lens position and the light curve
untouched. -/
theorem start_pause_only_change_running (s : SessionState) :
    (start_resume s).time_step = s.time_step ∧
    (start_resume s).lens_pos_x = s.lens_pos_x ∧
    (start_resume s).light_curve_data = s.light_curve_data ∧
    (pause s).time_step = s.time_step ∧
    (pause s).lens_pos_x = s.lens_pos_x ∧
    (pause s).light_curve_data = s.light_curve_data :=
  ⟨rfl, rfl, rfl, rfl, rfl, rfl⟩

/-- Under the scenario configuration the engine is still running after any
number n ≤ 400 of loop passes: the lens position reached is
-200 + n ≤ 200, and the termination check of source line 310 fires only for
a position strictly greater than SIM_WIDTH / 2 = 200. -/
theorem scenario_running (n : ℕ) (hn : n ≤ 400) :
    (stepIter scenarioConfig n (start_resume initState)).is_running = true := by
  induction n with
  | zero => rfl
  | succ k ih =>
      have hx := (stepIter_trace scenarioConfig (start_resume initState)
        rfl rfl rfl k).2.1
      have hk : (k : ℝ) ≤ 399 := by
        have hk399 : k ≤ 399 := by omega
        exact_mod_cast hk399
      have hcond :
          ¬ ((stepIter scenarioConfig k (start_resume initState)).lens_pos_x +
              SIM_WIDTH / TIME_STEPS > SIM_WIDTH / 2) := by
        rw [hx]
        simp only [SIM_WIDTH, TIME_STEPS, not_lt]
        norm_num
        linarith
      rw [stepIter_succ]
      simp only [step]
      rw [if_neg hcond]
      exact ih (by omega)

/-- Claim C2, counterexample: under the scenario configuration
{lensMass = 5, sourceRadius = 8, no planet}, after exactly 400 loop passes
from the started initial state the engine has NOT transitioned to Idle: the
lens position is exactly 200, the termination check `lens_pos_x > 200` is
false, and the running flag is still true. -/
theorem scenario_still_running_after_400_steps :
    (stepIter scenarioConfig 400 (start_resume initState)).is_running = true :=
  scenario_running 400 le_rfl

/-- Claim C2, amended: under the scenario configuration, after exactly 400
loop passes the lens position is exactly +200 (no floating tolerance is even
needed) but the engine is still Running, because the terminal condition
requires the position to exceed +SIM_WIDTH / 2 strictly; the
Running → Idle transition fires on the 401st pass, which leaves the lens
at 201. -/
theorem scenario_after_400_and_401_steps :
    (stepIter scenarioConfig 400 (start_resume initState)).lens_pos_x = 200 ∧
    (stepIter scenarioConfig 400 (start_resume initState)).is_running = true ∧
    (stepIter scenarioConfig 401 (start_resume initState)).is_running = false ∧
    (stepIter scenarioConfig 401 (start_resume initState)).lens_pos_x = 201 := by
  have hx400 :
      (stepIter scenarioConfig 400 (start_resume initState)).lens_pos_x = 200 := by
    have hx := (stepIter_trace scenarioConfig (start_resume initState)
      rfl rfl rfl 400).2.1
    rw [hx]
    norm_num [SIM_WIDTH, TIME_STEPS]
  have h401 : stepIter scenarioConfig 401 (start_resume initState) =
      step scenarioConfig (stepIter scenarioConfig 400 (start_resume initState)) := by
    rw [show (401 : ℕ) = 400 + 1 from rfl, stepIter_succ]
  have hcond :
      (stepIter scenarioConfig 400 (start_resume initState)).lens_pos_x +
        SIM_WIDTH / TIME_STEPS > SIM_WIDTH / 2 := by
    rw [hx400]
    norm_num [SIM_WIDTH, TIME_STEPS]
  refine ⟨hx400, scenario_running 400 le_rfl, ?_, ?_⟩
  · rw [h401]
    simp only [step]
    rw [if_pos hcond]
  · rw [h401]
    simp only [step]
    rw [hx400]
    norm_num [SIM_WIDTH, TIME_STEPS]

/-- Claim C3, counterexample: one loop pass after a reset (and start), the
first light-curve sample carries time step 0, not 1: the source appends the
sample (line 217) with the pre-increment time step and only then increments
it (line 309). -/
theorem first_sample_time_is_zero :
    (stepIter scenarioConfig 1
        (start_resume (reset_simulation initState))).light_curve_data.map
      Prod.fst ≠ [1] := by
  have hc := (stepIter_trace scenarioConfig
    (start_resume (reset_simulation initState)) rfl rfl rfl 1).2.2
  rw [hc, show List.range 1 = [0] from rfl]
  simp [Function.comp]

/-- Claim C3, amended: each loop pass appends its sample BEFORE incrementing
the time step, so after n passes from a reset the recorded samples carry the
time steps 0, 1, ..., n - 1 in order (the k-th sample, k ≥ 1, carries time
step k - 1), and the k-th sample's magnification is evaluated at the
already-advanced lens position -SIM_WIDTH / 2 + k * (SIM_WIDTH / TIME_STEPS),
the position belonging to time-step value k. -/
theorem light_curve_samples_zero_indexed (cfg : Config) (s : SessionState)
    (n : ℕ) :
    (stepIter cfg n (start_resume (reset_simulation s))).light_curve_data =
      (List.range n).map (fun k : ℕ =>
        (k, total_magnification cfg
          (-SIM_WIDTH / 2 + ((k : ℝ) + 1) * (SIM_WIDTH / TIME_STEPS)) k)) :=
  (stepIter_trace cfg (start_resume (reset_simulation s)) rfl rfl rfl n).2.2

/-- Claim C4: on the whole stated input domain (u ≥ 0, sourceRadius > 0,
einsteinRadius ≥ 0), the source's `calculate_magnification` agrees with the
specification's three-case reference definition. -/
theorem calculate_magnification_matches_spec (u r e : ℝ) (hu : 0 ≤ u)
    (hr : 0 < r) (he : 0 ≤ e) :
    calculate_magnification u r e = magnification_spec u r e := by
  by_cases hle : u ≤ rho r e
  · by_cases hlt : rho r e < epsilon
    · simp [calculate_magnification, magnification_spec, hle, hlt]
    · simp [calculate_magnification, magnification_spec, hle, hlt,
        not_lt.mp hlt]
  · simp [calculate_magnification, magnification_spec, hle]

/-- Witness for claim C4 at u = 1, sourceRadius = 1, einsteinRadius = 0. -/
theorem calculate_magnification_matches_spec_witness :
    (0 : ℝ) ≤ 1 ∧ (0 : ℝ) < 1 ∧ (0 : ℝ) ≤ 0 ∧
      calculate_magnification 1 1 0 = magnification_spec 1 1 0 :=
  ⟨by norm_num, by norm_num, le_rfl,
    calculate_magnification_matches_spec 1 1 0 (by norm_num) (by norm_num)
      le_rfl⟩

/-- Claim C5: the magnification function is continuous at the branch
boundary u = rho: whenever rho ≥ epsilon, `calculate_magnification`
evaluated at u = rho (which takes the flattened transiting branch) returns
exactly the standard point-lens formula evaluated at rho. -/
theorem magnification_continuous_at_rho (r e : ℝ) (hr : 0 < r) (he : 0 ≤ e)
    (hrho : epsilon ≤ rho r e) :
    calculate_magnification (rho r e) r e = point_lens_formula (rho r e) := by
  unfold calculate_magnification point_lens_formula
  rw [if_pos le_rfl, if_neg (not_lt.mpr hrho)]

/-- Witness for claim C5 at sourceRadius = 1, einsteinRadius = 0, where
rho = 10^9 ≥ epsilon. -/
theorem magnification_continuous_at_rho_witness :
    (0 : ℝ) < 1 ∧ (0 : ℝ) ≤ 0 ∧ epsilon ≤ rho 1 0 ∧
      calculate_magnification (rho 1 0) 1 0 = point_lens_formula (rho 1 0) :=
  ⟨by norm_num, le_rfl, by norm_num [rho, epsilon],
    magnification_continuous_at_rho 1 0 (by norm_num) le_rfl
      (by norm_num [rho, epsilon])⟩

/-- Claim C6: on the stated domain every branch denominator of
`calculate_magnification` is strictly positive (so no branch divides by
zero and the real-valued result is well defined and finite), and on the
standard branch (u > rho, hence u > 0) the result is at least 1. -/
theorem magnification_safe (u r e : ℝ) (hu : 0 ≤ u) (hr : 0 < r)
    (he : 0 ≤ e) :
    0 < (u + epsilon) * Real.sqrt (u ^ 2 + 4) ∧
    0 < rho r e * Real.sqrt (rho r e ^ 2 + 4) ∧
    (rho r e < u →
      0 < u * Real.sqrt (u ^ 2 + 4) ∧ 1 ≤ calculate_magnification u r e) := by
  have heps : (0 : ℝ) < epsilon := by norm_num [epsilon]
  have hepos : (0 : ℝ) < e + epsilon := by linarith
  have hrho : 0 < rho r e := by
    unfold rho
    exact div_pos hr hepos
  refine ⟨?_, ?_, ?_⟩
  · exact mul_pos (by linarith) (Real.sqrt_pos.mpr (by positivity))
  · exact mul_pos hrho (Real.sqrt_pos.mpr (by positivity))
  · intro hlt
    have hu0 : 0 < u := hrho.trans hlt
    have hden : 0 < u * Real.sqrt (u ^ 2 + 4) :=
      mul_pos hu0 (Real.sqrt_pos.mpr (by positivity))
    refine ⟨hden, ?_⟩
    unfold calculate_magnification
    rw [if_neg (not_le.mpr hlt), one_le_div hden]
    have hsq : Real.sqrt (u ^ 2 + 4) ^ 2 = u ^ 2 + 4 :=
      Real.sq_sqrt (by positivity)
    nlinarith [Real.sqrt_nonneg (u ^ 2 + 4),
      sq_nonneg (u * Real.sqrt (u ^ 2 + 4) - (u ^ 2 + 2)), sq_nonneg u]

/-- Witness for claim C6 at u = 1, sourceRadius = 1, einsteinRadius = 1. -/
theorem magnification_safe_witness :
    (0 : ℝ) ≤ 1 ∧ (0 : ℝ) < 1 ∧ (0 : ℝ) ≤ 1 ∧
      (0 < ((1 : ℝ) + epsilon) * Real.sqrt (1 ^ 2 + 4) ∧
        0 < rho 1 1 * Real.sqrt (rho 1 1 ^ 2 + 4) ∧
        (rho 1 1 < 1 →
          0 < (1 : ℝ) * Real.sqrt ((1 : ℝ) ^ 2 + 4) ∧
            1 ≤ calculate_magnification 1 1 1)) :=
  ⟨by norm_num, by norm_num, by norm_num,
    magnification_safe 1 1 1 (by norm_num) (by norm_num) (by norm_num)⟩

end

end Lsne5
